import Mathlib

/-!
Verification of the MK-312BT firmware real-time stimulation engine.

Shallow embedding of the C sources:
  pulse_gen.c / pulse_gen.h / interrupts.c  (biphasic pulse generator)
  param_engine.c                            (parameter modulation engine)
  mode_dispatcher.c                         (mode dispatcher and bytecode interpreter)
  channel_mem.c                             (channel register model)
  eeprom.c / config.c                       (persistence)
  main loop output-copy stage               (foreground pulse-parameter submission)

Machine bytes are modelled as `Nat` with explicit `% 256` / `% 65536`
truncation where the C code performs a narrowing conversion.
-/

namespace MK312BT

/-! ## Pulse generator data model (pulse_gen.h)

`ChannelPulseState` mirrors the C struct of the same name: the active
slots `width_ticks` / `period_ticks` and `phase` are written only by the
ISR, the `pending_*` slots and `params_dirty` only by the foreground.
The model additionally carries the timer compare register (`ocr`, the
value the ISR loads for the duration of the next phase) and the two
H-bridge gate pins of the channel. -/

inductive PulsePhase where
  | positive
  | deadtime1
  | negative
  | deadtime2
  | gap
deriving DecidableEq, Repr

structure ChannelPulseState where
  gate : Bool
  width_ticks : Nat
  period_ticks : Nat
  phase : PulsePhase
  gap_remaining : Nat
  pending_width : Nat
  pending_period : Nat
  params_dirty : Bool
  ocr : Nat
  pin_pos : Bool
  pin_neg : Bool
deriving DecidableEq, Repr

/-- DEAD_TIME_TICKS from MK312BT_Constants.h: 4 us dead time between
H-bridge polarity transitions. -/
def DEAD_TIME_TICKS : Nat := 4

/-! ## Foreground submission functions (pulse_gen.c)

`pulse_set_width_a` / `_b` clamp the argument below 70 up to 70 and
store it in the pending slot; `pulse_set_frequency_a` / `_b` clamp the
period below 500 up to 500.  Both channels use identical code, so one
definition serves for either channel. -/

def pulse_set_width (width_us : Nat) (s : ChannelPulseState) : ChannelPulseState :=
  let w := if width_us < 70 then 70 else width_us
  { s with pending_width := w, params_dirty := true }

def pulse_set_frequency (period_us : Nat) (s : ChannelPulseState) : ChannelPulseState :=
  let p := if period_us < 500 then 500 else period_us
  { s with pending_period := p, params_dirty := true }

def pulse_set_gate (onFlag : Bool) (s : ChannelPulseState) : ChannelPulseState :=
  if onFlag then { s with gate := true }
  else { s with gate := false, pin_pos := false, pin_neg := false }

/-! ## Pulse ISRs (interrupts.c)

`isr_ch_a` is ISR(TIMER1_COMPA_vect): the 16-bit Timer1 state machine
for channel A.  `isr_ch_b` is ISR(TIMER2_COMP_vect): the 8-bit Timer2
state machine for channel B, which splits long gaps into chunks of at
most 250 us counted down in `gap_remaining`. -/

def isr_ch_a (s : ChannelPulseState) : ChannelPulseState :=
  match s.phase with
  | PulsePhase.gap =>
      let s1 := if s.params_dirty then
          { s with width_ticks := s.pending_width,
                   period_ticks := s.pending_period,
                   params_dirty := false }
        else s
      if ¬ s1.gate then
        { s1 with pin_pos := false, pin_neg := false, ocr := 250 }
      else
        { s1 with pin_pos := true, pin_neg := false,
                  ocr := s1.width_ticks, phase := PulsePhase.positive }
  | PulsePhase.positive =>
      { s with pin_pos := false, pin_neg := false,
               ocr := DEAD_TIME_TICKS, phase := PulsePhase.deadtime1 }
  | PulsePhase.deadtime1 =>
      { s with pin_pos := false, pin_neg := true,
               ocr := s.width_ticks, phase := PulsePhase.negative }
  | PulsePhase.negative =>
      { s with pin_pos := false, pin_neg := false,
               ocr := DEAD_TIME_TICKS, phase := PulsePhase.deadtime2 }
  | PulsePhase.deadtime2 =>
      let used := s.width_ticks * 2 + DEAD_TIME_TICKS * 2
      let gap := if s.period_ticks > used then s.period_ticks - used
                 else DEAD_TIME_TICKS
      { s with ocr := gap, phase := PulsePhase.gap }

def isr_ch_b (s : ChannelPulseState) : ChannelPulseState :=
  match s.phase with
  | PulsePhase.gap =>
      if s.gap_remaining > 0 then
        let chunk := if s.gap_remaining > 250 then 250 else s.gap_remaining
        { s with ocr := chunk, gap_remaining := s.gap_remaining - chunk }
      else
        let s1 := if s.params_dirty then
            { s with width_ticks := s.pending_width,
                     period_ticks := s.pending_period,
                     params_dirty := false }
          else s
        if ¬ s1.gate then
          { s1 with pin_pos := false, pin_neg := false, ocr := 250 }
        else
          { s1 with pin_pos := true, pin_neg := false,
                    ocr := s1.width_ticks, phase := PulsePhase.positive }
  | PulsePhase.positive =>
      { s with pin_pos := false, pin_neg := false,
               ocr := DEAD_TIME_TICKS, phase := PulsePhase.deadtime1 }
  | PulsePhase.deadtime1 =>
      { s with pin_pos := false, pin_neg := true,
               ocr := s.width_ticks, phase := PulsePhase.negative }
  | PulsePhase.negative =>
      { s with pin_pos := false, pin_neg := false,
               ocr := DEAD_TIME_TICKS, phase := PulsePhase.deadtime2 }
  | PulsePhase.deadtime2 =>
      let used := s.width_ticks * 2 + DEAD_TIME_TICKS * 2
      let gap := if s.period_ticks > used then s.period_ticks - used
                 else DEAD_TIME_TICKS
      if gap ≤ 250 then
        { s with ocr := gap, gap_remaining := 0, phase := PulsePhase.gap }
      else
        { s with ocr := 250, gap_remaining := gap - 250, phase := PulsePhase.gap }

/-! ## Interleavings of ISR ticks and foreground submissions

An event is either an ISR firing or one of the foreground submission
calls.  `pulse_run` folds a list of events over a channel state; the ISR
function is a parameter so the same development covers both channels. -/

inductive PulseEvent where
  | isr
  | setWidth (w : Nat)
  | setFrequency (p : Nat)
  | setGate (onFlag : Bool)
deriving DecidableEq, Repr

def pulse_step (isr : ChannelPulseState → ChannelPulseState)
    (e : PulseEvent) (s : ChannelPulseState) : ChannelPulseState :=
  match e with
  | PulseEvent.isr => isr s
  | PulseEvent.setWidth w => pulse_set_width w s
  | PulseEvent.setFrequency p => pulse_set_frequency p s
  | PulseEvent.setGate b => pulse_set_gate b s

def pulse_run (isr : ChannelPulseState → ChannelPulseState)
    (es : List PulseEvent) (s : ChannelPulseState) : ChannelPulseState :=
  match es with
  | [] => s
  | e :: rest => pulse_run isr rest (pulse_step isr e s)

/-- Predicate: along the run of `es` from `s`, the state seen by every
event is outside the GAP phase (the state after the last event is not
constrained).  This is the situation of a channel in the middle of a
biphasic POSITIVE/NEGATIVE pair. -/
def nonGapRun (isr : ChannelPulseState → ChannelPulseState) :
    ChannelPulseState → List PulseEvent → Prop
  | _, [] => True
  | s, e :: rest => s.phase ≠ PulsePhase.gap ∧ nonGapRun isr (pulse_step isr e s) rest

instance nonGapRunDecidable (isr : ChannelPulseState → ChannelPulseState)
    (s : ChannelPulseState) (es : List PulseEvent) : Decidable (nonGapRun isr s es) := by
  induction es generalizing s with
  | nil => exact isTrue trivial
  | cons e rest ih =>
      have : Decidable (s.phase ≠ PulsePhase.gap ∧ nonGapRun isr (pulse_step isr e s) rest) :=
        @instDecidableAnd _ _ _ (ih (pulse_step isr e s))
      exact this

/-! ## Foreground output-copy stage (main loop, width submission)

The main loop derives the microsecond pulse width from the channel
block width group value byte.  The C expression is
`(uint8_t)(70 + ((uint16_t)width_a * 180) >> 8)`: because `+` binds
tighter than `>>`, this computes `((70 + width * 180) >> 8)` truncated
to a byte. -/

def loop_width_us (width_value : Nat) : Nat :=
  (((70 + width_value * 180) % 65536) / 256) % 256

/-- Width formula claimed by the specification (section 4.6):
pulse width (us) = 70 + (width_value * 180 / 256). -/
def spec_width_us (width_value : Nat) : Nat :=
  70 + width_value * 180 / 256

/-- The period the main loop submits: 65000 sentinel below frequency 2,
otherwise `freq_value * 256`. -/
def loop_period_us (freq_value : Nat) : Nat :=
  if freq_value < 2 then 65000 else (freq_value * 256) % 65536

/-! ## Knob-to-range scaling

The firmware contains two copies of `map_ma`.  The one in
param_engine.c divides by 255; the one in mode_dispatcher.c shifts
right by 8 (divides by 256).  Both take the raw knob byte and the
channel block's `ma_range_high` / `ma_range_low` registers.  The
`(uint8_t)` casts on the scaled product are kept as `% 256`. -/

def param_engine_map_ma (ma_raw ma_high ma_low : Nat) : Nat :=
  if ma_low ≤ ma_high then
    (ma_low + (ma_raw * (ma_high - ma_low) / 255) % 256) % 256
  else
    (ma_low - (ma_raw * (ma_low - ma_high) / 255) % 256) % 256

def mode_dispatcher_map_ma (ma_raw ma_high ma_low : Nat) : Nat :=
  if ma_low ≤ ma_high then
    (ma_low + (ma_raw * (ma_high - ma_low) / 256) % 256) % 256
  else
    (ma_low - (ma_raw * (ma_low - ma_high) / 256) % 256) % 256

/-- Knob scaling as the specification words it (section 4.3): with raw
knob K and knob-range (low, high), if high >= low the result is
low + ((K * (high - low)) >> 8), else low - ((K * (low - high)) >> 8). -/
def spec_knob_scale (K low high : Nat) : Nat :=
  if low ≤ high then low + K * (high - low) / 256
  else low - K * (low - high) / 256

/-! ## Parameter engine (param_engine.c)

`ParamGroup` is the nine-byte register group
(value, min, max, rate, step, action_min, action_max, select, timer).
`step_group` advances one group by one engine tick; the sweep direction
is a bit held outside the block, and the group can mutate the block's
gate value (REVERSE_TOGGLE) and raise a module trigger. -/

structure ParamGroup where
  value : Nat
  min : Nat
  max : Nat
  rate : Nat
  step : Nat
  action_min : Nat
  action_max : Nat
  select : Nat
  timer : Nat
deriving DecidableEq, Repr

def DIR_UP : Nat := 0
def DIR_DOWN : Nat := 1

def ACTION_REVERSE : Nat := 0xFF
def ACTION_REV_TOGGLE : Nat := 0xFE
def ACTION_LOOP : Nat := 0xFD
def ACTION_STOP : Nat := 0xFC
def GATE_ALT_POL : Nat := 0x08

/-- resolve_source from param_engine.c: the low two bits of the index
pick the base value, bit 0x4 bitwise-inverts the byte. -/
def resolve_source (index own_val adv_val ma_scaled other_val : Nat) : Nat :=
  let base := index % 4
  let v := if base = 0 then own_val
           else if base = 1 then adv_val
           else if base = 2 then ma_scaled
           else other_val
  if index / 4 % 2 = 1 then 255 - v % 256 else v

/-- timer_fires from param_engine.c, parameterised by the engine tick
counter byte. -/
def timer_fires (tick_counter timer_sel : Nat) : Bool :=
  if timer_sel = 1 then true
  else if timer_sel = 2 then tick_counter % 8 = 0
  else if timer_sel = 3 then tick_counter = 0
  else false

/-- The outcome of stepping one parameter group: the new group, the new
gate value byte of the block, the new sweep-direction bit, and the
module trigger (0xFF = none). -/
structure GroupStepResult where
  group : ParamGroup
  gate_value : Nat
  dir : Nat
  trigger : Nat
deriving DecidableEq, Repr

/-- do_action from param_engine.c.  Called with `g` already clamped to
the boundary that was hit. -/
def do_action (action : Nat) (g : ParamGroup) (gate_value dir : Nat) : GroupStepResult :=
  if action = ACTION_REV_TOGGLE then
    { group := g, gate_value := gate_value ^^^ GATE_ALT_POL,
      dir := if dir = DIR_UP then DIR_DOWN else DIR_UP, trigger := 0xFF }
  else if action = ACTION_REVERSE then
    { group := g, gate_value := gate_value,
      dir := if dir = DIR_UP then DIR_DOWN else DIR_UP, trigger := 0xFF }
  else if action = ACTION_LOOP then
    if dir = DIR_UP then
      { group := { g with value := g.min }, gate_value := gate_value,
        dir := dir, trigger := 0xFF }
    else
      { group := { g with value := g.max }, gate_value := gate_value,
        dir := dir, trigger := 0xFF }
  else if action = ACTION_STOP then
    { group := { g with select := g.select &&& 0xFC }, gate_value := gate_value,
      dir := dir, trigger := 0xFF }
  else if action < ACTION_STOP then
    { group := g, gate_value := gate_value, dir := dir, trigger := action }
  else
    { group := g, gate_value := gate_value, dir := dir, trigger := 0xFF }

/-- step_group from param_engine.c.  `tick_counter` is the engine tick
byte; `ma_scaled`, `adv_min`, `adv_rate` and `other_val` are the
resolved source inputs the caller passes in. -/
def step_group (tick_counter : Nat) (g : ParamGroup) (gate_value dir : Nat)
    (ma_scaled adv_min adv_rate other_val : Nat) : GroupStepResult :=
  let sel := g.select
  let timer_sel := sel &&& 3
  if timer_sel = 0 then
    let src_bits := sel / 4 % 8
    if src_bits ≠ 0 then
      { group := { g with value := resolve_source src_bits g.value adv_min ma_scaled other_val },
        gate_value := gate_value, dir := dir, trigger := 0xFF }
    else
      { group := g, gate_value := gate_value, dir := dir, trigger := 0xFF }
  else if ¬ timer_fires tick_counter timer_sel then
    { group := g, gate_value := gate_value, dir := dir, trigger := 0xFF }
  else
    let rate_idx := sel / 32 % 8
    let er0 := resolve_source rate_idx g.rate adv_rate ma_scaled other_val
    let effective_rate := if er0 = 0 then 1 else er0
    let t1 := (g.timer + 1) % 256
    if t1 < effective_rate then
      { group := { g with timer := t1 }, gate_value := gate_value, dir := dir, trigger := 0xFF }
    else
      let min_idx := sel / 4 % 8
      let g1 := { g with timer := 0 }
      let g2 := if min_idx ≠ 0 then
          { g1 with min := resolve_source min_idx g1.min adv_min ma_scaled other_val }
        else g1
      if g2.step = 0 then
        { group := g2, gate_value := gate_value, dir := dir, trigger := 0xFF }
      else if dir = DIR_UP then
        let next := g2.value + g2.step
        if g2.max ≤ next then
          do_action g2.action_max { g2 with value := g2.max } gate_value dir
        else
          { group := { g2 with value := next % 256 }, gate_value := gate_value,
            dir := dir, trigger := 0xFF }
      else
        if g2.value ≤ g2.min + g2.step then
          do_action g2.action_min { g2 with value := g2.min } gate_value dir
        else
          { group := { g2 with value := g2.value - g2.step }, gate_value := gate_value,
            dir := dir, trigger := 0xFF }

/-- Iterate `step_group` for a fixed number of engine ticks with
constant source inputs (tick counter runs 1, 2, ...: param_engine_tick
increments the counter before stepping the groups). -/
def step_group_iter : Nat → Nat → ParamGroup → Nat → Nat →
    Nat → Nat → Nat → Nat → GroupStepResult
  | 0, _, g, gv, dir, _, _, _, _ =>
      { group := g, gate_value := gv, dir := dir, trigger := 0xFF }
  | n + 1, tick, g, gv, dir, ma, am, ar, ov =>
      let r := step_group tick g gv dir ma am ar ov
      step_group_iter n (tick + 1) r.group r.gate_value r.dir ma am ar ov

/-! ## Channel register model (channel_mem.c)

The two 64-byte channel blocks are addressable at 0x080-0x0BF (A) and
0x180-0x1BF (B).  `channel_get_reg_ptr` maps any other address to a
scratch byte that is zeroed on every call, so out-of-range reads yield
0 and out-of-range writes are unobservable.  The register file is
modelled as a total function from addresses to bytes in which only the
two block ranges are meaningful. -/

def RegFile : Type := Nat → Nat

def chan_in_range (addr : Nat) : Bool :=
  (0x80 ≤ addr && addr < 0xC0) || (0x180 ≤ addr && addr < 0x1C0)

/-- Read the byte behind `channel_get_reg_ptr addr`: out-of-range
addresses read the freshly zeroed scratch byte. -/
def reg_read (m : RegFile) (addr : Nat) : Nat :=
  if chan_in_range addr then m addr else 0

/-- Write the byte behind `channel_get_reg_ptr addr`: out-of-range
writes land in the scratch byte and are silently dropped. -/
def reg_write (addr v : Nat) (m : RegFile) : RegFile :=
  fun a => if chan_in_range addr && a == addr then v else m a

/-! ## PRNG (prng.c): 16-bit LCG -/

def prng_next16 (state : Nat) : Nat :=
  (state * 1103515245 + 12345) % 65536

/-- prng_next returns the high byte of the next 16-bit state. -/
def prng_next_val (state : Nat) : Nat := prng_next16 state / 256

/-! ## Bytecode interpreter (execute_module, mode_dispatcher.c)

A module is a byte list; fetching past the end yields 0 (END).  The
interpreter state is the register file plus the PRNG state.  One
`exec_step` executes the instruction at `pc` and returns the new pc and
state, or `none` when the instruction halts the module. -/

structure InterpState where
  mem : RegFile
  prng : Nat

def fetch (prog : List Nat) (i : Nat) : Nat := prog.getD i 0

/-- COPY payload writes: `n` consecutive program bytes starting at
`src` written to consecutive register addresses starting at `addr`. -/
def copy_bytes (prog : List Nat) : Nat → Nat → Nat → RegFile → RegFile
  | _, _, 0, m => m
  | src, addr, n + 1, m =>
      copy_bytes prog (src + 1) (addr + 1) n (reg_write addr (fetch prog src) m)

/-- Apply-channel resolution shared by the MEMOP and MATHOP branches:
addresses in channel A's block honour the `apply_channel` mask at
0x085, addresses in channel B's block apply to B only, all others
default to A only. -/
def apply_mask (m : RegFile) (addr : Nat) : Bool × Bool :=
  if 0x80 ≤ addr ∧ addr < 0xC0 then
    let ac := reg_read m 0x85
    (ac % 2 = 1, ac / 2 % 2 = 1)
  else if 0x180 ≤ addr ∧ addr < 0x1C0 then
    (false, true)
  else
    (true, false)

def mathop_apply (op cur v : Nat) : Nat :=
  if op = 0 then (cur + v) % 256
  else if op = 1 then cur &&& v
  else if op = 2 then cur ||| v
  else cur ^^^ v

/-- One iteration of the execute_module dispatch loop.  `ma_raw` is the
raw Multi-Adjust knob byte read through config_get.  Returns `none`
when the opcode halts the module. -/
def exec_step (ma_raw : Nat) (prog : List Nat) (pc : Nat) (st : InterpState) :
    Option (Nat × InterpState) :=
  let opcode := fetch prog pc
  if opcode &&& 0xE0 = 0 then
    none
  else if opcode &&& 0xE0 = 0x20 then
    let len := 1 + (opcode &&& 0x1C) / 4
    let addr := (opcode &&& 0x03) * 256 ||| fetch prog (pc + 1)
    some (pc + 2 + len, { st with mem := copy_bytes prog (pc + 2) addr len st.mem })
  else if opcode &&& 0xF0 = 0x40 then
    let addr := (opcode &&& 0x03) * 256 ||| fetch prog (pc + 1)
    let op := (opcode &&& 0x0C) / 4
    let ab := apply_mask st.mem addr
    let st1 :=
      if op = 0 then
        let m1 := if ab.1 then reg_write addr (reg_read st.mem 0x8C) st.mem else st.mem
        let m2 := if ab.2 then reg_write (addr + 0x100) (reg_read m1 0x18C) m1 else m1
        { st with mem := m2 }
      else if op = 1 then
        let m1 := if ab.1 then reg_write 0x8C (reg_read st.mem addr) st.mem else st.mem
        let m2 := if ab.2 then reg_write 0x18C (reg_read m1 (addr + 0x100)) m1 else m1
        { st with mem := m2 }
      else if op = 2 then
        let m1 := if ab.1 then reg_write addr (reg_read st.mem addr / 2) st.mem else st.mem
        let m2 := if ab.2 then reg_write (addr + 0x100) (reg_read m1 (addr + 0x100) / 2) m1
                  else m1
        { st with mem := m2 }
      else
        let src_base := if addr / 256 % 2 = 1 then 0x180 else 0x80
        let min_val := reg_read st.mem (src_base + 0x0D)
        let max_val := reg_read st.mem (src_base + 0x0E)
        let prng1 := if min_val < max_val then prng_next16 st.prng else st.prng
        let rand_val := if min_val < max_val then
            min_val + prng_next_val st.prng % (max_val - min_val + 1)
          else min_val
        let m1 := if ab.1 then reg_write addr rand_val st.mem else st.mem
        let m2 := if ab.2 then reg_write (addr + 0x100) rand_val m1 else m1
        { mem := m2, prng := prng1 }
    some (pc + 2, st1)
  else if opcode &&& 0xF0 = 0x50 then
    let addr := (opcode &&& 0x03) * 256 ||| fetch prog (pc + 1)
    let v := fetch prog (pc + 2)
    let op := (opcode &&& 0x0C) / 4
    let ab := apply_mask st.mem addr
    let m1 := if ab.1 then reg_write addr (mathop_apply op (reg_read st.mem addr) v) st.mem
              else st.mem
    let m2 := if ab.2 ∧ 0x80 ≤ addr ∧ addr < 0xC0 then
        reg_write (addr + 0x100) (mathop_apply op (reg_read m1 (addr + 0x100)) v) m1
      else m1
    some (pc + 3, { st with mem := m2 })
  else if opcode = 0x60 then
    let ac := reg_read st.mem 0x85
    let m1 := if ac % 2 = 1 then
        reg_write 0x8C (mode_dispatcher_map_ma ma_raw (reg_read st.mem 0x86)
          (reg_read st.mem 0x87)) st.mem
      else st.mem
    let m2 := if ac / 2 % 2 = 1 then
        reg_write 0x18C (mode_dispatcher_map_ma ma_raw (reg_read m1 0x186)
          (reg_read m1 0x187)) m1
      else m1
    some (pc + 1, { st with mem := m2 })
  else if opcode &&& 0x80 ≠ 0 then
    let offset := opcode &&& 0x3F
    let v := fetch prog (pc + 1)
    let m2 :=
      if opcode &&& 0x40 ≠ 0 then
        reg_write (0x180 + offset) v st.mem
      else
        let ac := reg_read st.mem 0x85
        let m1 := if ac % 2 = 1 then reg_write (0x80 + offset) v st.mem else st.mem
        if ac / 2 % 2 = 1 then reg_write (0x180 + offset) v m1 else m1
    some (pc + 2, { st with mem := m2 })
  else if opcode &&& 0x10 ≠ 0 then
    some (pc + 2, st)
  else
    some (pc + 1, st)

/-- Run the interpreter loop with fuel (execute_module runs until an
END opcode; fuel makes the recursion structural). -/
def exec_module : Nat → Nat → List Nat → Nat → InterpState → InterpState
  | 0, _, _, _, st => st
  | fuel + 1, ma_raw, prog, pc, st =>
      match exec_step ma_raw prog pc st with
      | none => st
      | some (pc1, st1) => exec_module fuel ma_raw prog pc1 st1

/-- Projection helpers for stating concrete interpreter results. -/
def step_pc (r : Option (Nat × InterpState)) : Option Nat :=
  r.map Prod.fst

def step_mem_at (r : Option (Nat × InterpState)) (addr : Nat) : Option Nat :=
  r.map (fun p => p.2.mem addr)

/-! ## Persistence (eeprom.c / config.c)

`eeprom_config_t` is the 22-byte block stored at EEPROM address 0; the
two split-mode bytes follow at addresses 0x16 and 0x17.  The store is
modelled as the list of its bytes, index = EEPROM address. -/

structure EepromConfig where
  magic : Nat
  top_mode : Nat
  favorite_mode : Nat
  power_level : Nat
  intensity_a : Nat
  intensity_b : Nat
  frequency_a : Nat
  frequency_b : Nat
  width_a : Nat
  width_b : Nat
  multi_adjust : Nat
  audio_gain : Nat
  split_mode : Nat
  adv_ramp_level : Nat
  adv_ramp_time : Nat
  adv_depth : Nat
  adv_tempo : Nat
  adv_frequency : Nat
  adv_effect : Nat
  adv_width : Nat
  adv_pace : Nat
  checksum : Nat
deriving DecidableEq, Repr

def EEPROM_MAGIC_BYTE : Nat := 0xA6

/-- The byte image of `eeprom_config_t` in declaration order (the order
the bytes occupy in the EEPROM block). -/
def config_bytes (c : EepromConfig) : List Nat :=
  [c.magic, c.top_mode, c.favorite_mode, c.power_level,
   c.intensity_a, c.intensity_b, c.frequency_a, c.frequency_b,
   c.width_a, c.width_b, c.multi_adjust, c.audio_gain, c.split_mode,
   c.adv_ramp_level, c.adv_ramp_time, c.adv_depth, c.adv_tempo,
   c.adv_frequency, c.adv_effect, c.adv_width, c.adv_pace, c.checksum]

/-- XOR fold of a byte list (the checksum loop of eeprom.c). -/
def xsum (l : List Nat) : Nat := l.foldl (· ^^^ ·) 0

/-- XOR checksum of all bytes except the last (the checksum field),
as eeprom_calculate_checksum computes it. -/
def eeprom_calculate_checksum (c : EepromConfig) : Nat :=
  xsum ((config_bytes c).take 21)

/-- eeprom_save_config mutates the caller's struct: it forces the magic
byte and recomputes the checksum.  The result is the struct whose bytes
are then written to the store. -/
def eeprom_save_config (c : EepromConfig) : EepromConfig :=
  let c1 := { c with magic := EEPROM_MAGIC_BYTE }
  { c1 with checksum := eeprom_calculate_checksum c1 }

/-- The store image produced by eeprom_save_config. -/
def saved_store (c : EepromConfig) : List Nat :=
  config_bytes (eeprom_save_config c)

/-- Rebuild the struct from the first 22 bytes of the store (the
byte-wise read loop of eeprom_load_config). -/
def parse_config (bs : List Nat) : EepromConfig :=
  { magic := bs.getD 0 0, top_mode := bs.getD 1 0, favorite_mode := bs.getD 2 0,
    power_level := bs.getD 3 0, intensity_a := bs.getD 4 0, intensity_b := bs.getD 5 0,
    frequency_a := bs.getD 6 0, frequency_b := bs.getD 7 0, width_a := bs.getD 8 0,
    width_b := bs.getD 9 0, multi_adjust := bs.getD 10 0, audio_gain := bs.getD 11 0,
    split_mode := bs.getD 12 0, adv_ramp_level := bs.getD 13 0,
    adv_ramp_time := bs.getD 14 0, adv_depth := bs.getD 15 0, adv_tempo := bs.getD 16 0,
    adv_frequency := bs.getD 17 0, adv_effect := bs.getD 18 0, adv_width := bs.getD 19 0,
    adv_pace := bs.getD 20 0, checksum := bs.getD 21 0 }

/-- Checksum computed on the load side: eeprom_load_config first reads
the 22 block bytes into the struct and then XORs the first 21 of those
bytes, so the sum ranges over the first 21 store bytes. -/
def store_checksum (bs : List Nat) : Nat := xsum (bs.take 21)

/-- eeprom_load_config: read the block, verify magic, verify checksum;
`none` models the 0 return (blank or corrupted). -/
def eeprom_load_config (bs : List Nat) : Option EepromConfig :=
  let c := parse_config bs
  if c.magic = EEPROM_MAGIC_BYTE ∧ store_checksum bs = c.checksum then some c
  else none

/-! Runtime configuration (config.c). -/

structure SystemConfig where
  current_mode : Nat
  power_level : Nat
  split_mode : Nat
  split_a_mode : Nat
  split_b_mode : Nat
  intensity_a : Nat
  intensity_b : Nat
  frequency_a : Nat
  frequency_b : Nat
  width_a : Nat
  width_b : Nat
  multi_adjust : Nat
  audio_gain : Nat
  adv_ramp_level : Nat
  adv_ramp_time : Nat
  adv_depth : Nat
  adv_tempo : Nat
  adv_frequency : Nat
  adv_effect : Nat
  adv_width : Nat
  adv_pace : Nat
  favorite_mode : Nat
deriving DecidableEq, Repr

def MODE_WAVES : Nat := 0
def MODE_RANDOM1 : Nat := 9
def MODE_SPLIT : Nat := 24
def MODE_COUNT : Nat := 25

/-- config_set_defaults: the factory default runtime configuration. -/
def config_set_defaults : SystemConfig :=
  { current_mode := MODE_WAVES, power_level := 1, split_mode := 0,
    split_a_mode := MODE_WAVES, split_b_mode := MODE_WAVES,
    intensity_a := 128, intensity_b := 128, frequency_a := 5, frequency_b := 5,
    width_a := 25, width_b := 25, multi_adjust := 128, audio_gain := 128,
    adv_ramp_level := 128, adv_ramp_time := 0, adv_depth := 50, adv_tempo := 50,
    adv_frequency := 107, adv_effect := 128, adv_width := 130, adv_pace := 50,
    favorite_mode := MODE_WAVES }

/-- eeprom_load_split_modes: bytes at EEPROM 0x16/0x17, clamped to 0
when not below MODE_SPLIT. -/
def eeprom_load_split_modes (bs : List Nat) : Nat × Nat :=
  let a := bs.getD 0x16 0
  let b := bs.getD 0x17 0
  (if a < MODE_SPLIT then a else 0, if b < MODE_SPLIT then b else 0)

/-- config_load_from_eeprom: on a successful block load, copy the
stored fields into the runtime config; otherwise substitute the factory
defaults.  The function only reads the store (it performs no EEPROM
writes), which the type records: the store argument is not returned. -/
def config_load_from_eeprom (bs : List Nat) (prev : SystemConfig) : SystemConfig :=
  match eeprom_load_config bs with
  | some e =>
      let split := eeprom_load_split_modes bs
      { prev with
        current_mode := e.top_mode, power_level := e.power_level,
        split_mode := e.split_mode, split_a_mode := split.1, split_b_mode := split.2,
        intensity_a := e.intensity_a, intensity_b := e.intensity_b,
        frequency_a := e.frequency_a, frequency_b := e.frequency_b,
        width_a := e.width_a, width_b := e.width_b,
        multi_adjust := e.multi_adjust, audio_gain := e.audio_gain,
        adv_ramp_level := e.adv_ramp_level, adv_ramp_time := e.adv_ramp_time,
        adv_depth := e.adv_depth, adv_tempo := e.adv_tempo,
        adv_frequency := e.adv_frequency, adv_effect := e.adv_effect,
        adv_width := e.adv_width, adv_pace := e.adv_pace,
        favorite_mode := e.favorite_mode }
  | none => config_set_defaults

/-! ## Mode selection (mode_dispatcher_select_mode)

The entry protocol normalises out-of-range mode numbers to 0 before
touching the mode table, then branches to the Random1 entry, the split
entry, or the module-table entry for the normalised mode. -/

inductive ModeEntryKind where
  | random1Entry
  | splitEntry
  | moduleEntry (mode : Nat)
deriving DecidableEq, Repr

/-- The mode number actually entered by mode_dispatcher_select_mode. -/
def select_mode_normalize (mode_number : Nat) : Nat :=
  if MODE_COUNT ≤ mode_number then 0 else mode_number

/-- Which entry branch mode_dispatcher_select_mode takes (Random1 resets
the rotation state, Split runs init_split_mode, every other mode runs
init_mode_modules on the mode's module list). -/
def select_mode_entry (mode_number : Nat) : ModeEntryKind :=
  let m := select_mode_normalize mode_number
  if m = MODE_RANDOM1 then ModeEntryKind.random1Entry
  else if m = MODE_SPLIT then ModeEntryKind.splitEntry
  else ModeEntryKind.moduleEntry m

/-- The dispatcher's current-mode register after select_mode. -/
def mode_dispatcher_select_mode (mode_number : Nat) : Nat :=
  select_mode_normalize mode_number

/-! ## Concrete instances used to evaluate the definitions -/

/-- The channel state pulse_gen_init establishes (gate off, width 100,
period 5000, phase GAP, initial compare value 250). -/
def pulse_gen_init_state : ChannelPulseState :=
  { gate := false, width_ticks := 100, period_ticks := 5000,
    phase := PulsePhase.gap, gap_remaining := 0,
    pending_width := 100, pending_period := 5000, params_dirty := false,
    ocr := 250, pin_pos := false, pin_neg := false }

/-- A reachable channel state at the end of DEADTIME2 with active
width 255 and active period 519 (both submittable: 255 is a legal width
byte, 519 is above the 500 us period floor). -/
def wide_pulse_state : ChannelPulseState :=
  { gate := true, width_ticks := 255, period_ticks := 519,
    phase := PulsePhase.deadtime2, gap_remaining := 0,
    pending_width := 255, pending_period := 519, params_dirty := false,
    ocr := DEAD_TIME_TICKS, pin_pos := false, pin_neg := false }

/-- The parameter group of testable property 5: LOOP at both ends,
step 1, min 10, max 20, firing every tick (timer-rate bits = 0b01 and
rate 1), starting at 10. -/
def loop_test_group : ParamGroup :=
  { value := 10, min := 10, max := 20, rate := 1, step := 1,
    action_min := ACTION_LOOP, action_max := ACTION_LOOP,
    select := 0x01, timer := 0 }

/-- A module whose first instruction has opcode 0x24
(binary 00100100): under the claimed 001llaaa encoding this is a COPY
of one data byte to address 0x490; the code decodes it as a COPY of
two data bytes (0xAA, 0xBB) to address 0x090. -/
def copy_demo_prog : List Nat := [0x24, 0x90, 0xAA, 0xBB]

/-- A module that begins with the reserved opcode 0x10 followed by a
SET instruction (0xA5 0x07 = write 0x07 at block offset 0x25 of
channel A, the intensity value). -/
def reserved_demo_prog : List Nat := [0x10, 0x00, 0xA5, 0x07]

/-- Register file that is all zero except apply_channel = 3 (both). -/
def demo_regfile : RegFile := fun a => if a = 0x85 then 3 else 0

def demo_interp : InterpState := { mem := demo_regfile, prng := 0xACE1 }

def zero_interp : InterpState := { mem := fun _ => 0, prng := 0xACE1 }

/-- A concrete configuration used to evaluate the persistence path. -/
def demo_config : EepromConfig :=
  { magic := 0, top_mode := 0, favorite_mode := 0, power_level := 1,
    intensity_a := 128, intensity_b := 128, frequency_a := 5, frequency_b := 5,
    width_a := 25, width_b := 25, multi_adjust := 128, audio_gain := 128,
    split_mode := 0, adv_ramp_level := 128, adv_ramp_time := 0, adv_depth := 50,
    adv_tempo := 50, adv_frequency := 107, adv_effect := 128, adv_width := 130,
    adv_pace := 50, checksum := 0 }

/-- A default runtime configuration instance used as the prior state of
config_load_from_eeprom in the concrete evaluations. -/
def demo_system_config : SystemConfig :=
  { config_set_defaults with current_mode := 7, intensity_a := 3 }

/-! ## Helper lemmas: pulse generator -/

lemma isr_ch_a_frozen_off_gap (s : ChannelPulseState) (h : s.phase ≠ PulsePhase.gap) :
    (isr_ch_a s).width_ticks = s.width_ticks ∧
    (isr_ch_a s).period_ticks = s.period_ticks ∧
    (isr_ch_a s).params_dirty = s.params_dirty := by
  cases hp : s.phase
  case gap => exact absurd hp h
  all_goals simp [isr_ch_a, hp]

lemma isr_ch_b_frozen_off_gap (s : ChannelPulseState) (h : s.phase ≠ PulsePhase.gap) :
    (isr_ch_b s).width_ticks = s.width_ticks ∧
    (isr_ch_b s).period_ticks = s.period_ticks ∧
    (isr_ch_b s).params_dirty = s.params_dirty := by
  cases hp : s.phase
  case gap => exact absurd hp h
  case deadtime2 =>
    simp only [isr_ch_b, hp]
    split <;> split <;> simp
  all_goals simp [isr_ch_b, hp]

lemma submission_frozen (isr : ChannelPulseState → ChannelPulseState)
    (e : PulseEvent) (s : ChannelPulseState) (h : e ≠ PulseEvent.isr) :
    (pulse_step isr e s).width_ticks = s.width_ticks ∧
    (pulse_step isr e s).period_ticks = s.period_ticks ∧
    (pulse_step isr e s).phase = s.phase := by
  cases e with
  | isr => exact absurd rfl h
  | setWidth w => simp [pulse_step, pulse_set_width]
  | setFrequency p => simp [pulse_step, pulse_set_frequency]
  | setGate b => cases b <;> simp [pulse_step, pulse_set_gate]

lemma pulse_run_frozen (isr : ChannelPulseState → ChannelPulseState)
    (hisr : ∀ s : ChannelPulseState, s.phase ≠ PulsePhase.gap →
      (isr s).width_ticks = s.width_ticks ∧ (isr s).period_ticks = s.period_ticks)
    (es : List PulseEvent) :
    ∀ s : ChannelPulseState, nonGapRun isr s es →
      (pulse_run isr es s).width_ticks = s.width_ticks ∧
      (pulse_run isr es s).period_ticks = s.period_ticks := by
  induction es with
  | nil => intro s _; exact ⟨rfl, rfl⟩
  | cons e rest ih =>
      intro s h
      obtain ⟨h1, h2⟩ := h
      have hstep : (pulse_step isr e s).width_ticks = s.width_ticks ∧
          (pulse_step isr e s).period_ticks = s.period_ticks := by
        cases e with
        | isr => exact hisr s h1
        | setWidth w => simp [pulse_step, pulse_set_width]
        | setFrequency p => simp [pulse_step, pulse_set_frequency]
        | setGate b => cases b <;> simp [pulse_step, pulse_set_gate]
      have hrest := ih (pulse_step isr e s) h2
      exact ⟨by rw [pulse_run, hrest.1, hstep.1], by rw [pulse_run, hrest.2, hstep.2]⟩

/-! ## Claim theorems: pulse generator and output copy -/

/-- C1.  The claim states the submitted pulse width equals
70 + (width_value * 180 / 256), lying in [70, 249].  The code computes
`(uint8_t)(70 + ((uint16_t)width_a * 180) >> 8)`, which by C operator
precedence is `(70 + width * 180) >> 8`: at width byte 255 the code
submits 179 where the claimed formula gives 249 (and at width byte 0 it
submits 0 where the claimed formula gives 70). -/
theorem loop_width_formula_mismatch :
    loop_width_us 255 = 179 ∧ spec_width_us 255 = 249 ∧
    loop_width_us 255 ≠ spec_width_us 255 ∧
    loop_width_us 0 = 0 ∧ spec_width_us 0 = 70 := by
  decide

/-- C2.  The claim (and the pulse_gen.h documentation) states widths
are clamped into [20, 255] with floor 20, so an input of 20 is stored
unchanged.  The code clamps at 70: pulse_set_width(20) stores a pending
width of 70, not 20. -/
theorem pulse_set_width_floor_mismatch :
    (pulse_set_width 20 pulse_gen_init_state).pending_width = 70 ∧
    (pulse_set_width 20 pulse_gen_init_state).pending_width ≠ 20 := by
  decide

/-- C3.  The pulse ISR of either channel copies pending width/period
into the active slots and clears the dirty flag only in the GAP phase:
outside GAP the ISR leaves the active slots and the dirty flag
untouched, foreground submissions never touch the active slots or the
phase, and along any interleaving of submissions and ISR ticks that
stays outside GAP (in particular across a complete POSITIVE/DEADTIME1/
NEGATIVE/DEADTIME2 pair) the active width and period are constant, so
every complete biphasic pair is produced from one consistent pair. -/
theorem pulse_handoff_atomicity :
    (∀ s : ChannelPulseState, s.phase ≠ PulsePhase.gap →
      (isr_ch_a s).width_ticks = s.width_ticks ∧
      (isr_ch_a s).period_ticks = s.period_ticks ∧
      (isr_ch_a s).params_dirty = s.params_dirty) ∧
    (∀ s : ChannelPulseState, s.phase ≠ PulsePhase.gap →
      (isr_ch_b s).width_ticks = s.width_ticks ∧
      (isr_ch_b s).period_ticks = s.period_ticks ∧
      (isr_ch_b s).params_dirty = s.params_dirty) ∧
    (∀ (isr : ChannelPulseState → ChannelPulseState) (e : PulseEvent)
       (s : ChannelPulseState), e ≠ PulseEvent.isr →
      (pulse_step isr e s).width_ticks = s.width_ticks ∧
      (pulse_step isr e s).period_ticks = s.period_ticks ∧
      (pulse_step isr e s).phase = s.phase) ∧
    (∀ (es : List PulseEvent) (s : ChannelPulseState), nonGapRun isr_ch_a s es →
      (pulse_run isr_ch_a es s).width_ticks = s.width_ticks ∧
      (pulse_run isr_ch_a es s).period_ticks = s.period_ticks) ∧
    (∀ (es : List PulseEvent) (s : ChannelPulseState), nonGapRun isr_ch_b s es →
      (pulse_run isr_ch_b es s).width_ticks = s.width_ticks ∧
      (pulse_run isr_ch_b es s).period_ticks = s.period_ticks) := by
  refine ⟨isr_ch_a_frozen_off_gap, isr_ch_b_frozen_off_gap, submission_frozen, ?_, ?_⟩
  · intro es s h
    exact pulse_run_frozen isr_ch_a
      (fun s h => ⟨(isr_ch_a_frozen_off_gap s h).1, (isr_ch_a_frozen_off_gap s h).2.1⟩) es s h
  · intro es s h
    exact pulse_run_frozen isr_ch_b
      (fun s h => ⟨(isr_ch_b_frozen_off_gap s h).1, (isr_ch_b_frozen_off_gap s h).2.1⟩) es s h

/-- Witness for C3: a concrete mid-pulse interleaving (ISR tick, a
width submission, two more ISR ticks) starting in POSITIVE keeps the
active width and period constant. -/
theorem pulse_handoff_atomicity_witness :
    nonGapRun isr_ch_a { pulse_gen_init_state with phase := PulsePhase.positive, gate := true }
      [PulseEvent.isr, PulseEvent.setWidth 80, PulseEvent.isr, PulseEvent.isr] ∧
    (pulse_run isr_ch_a
        [PulseEvent.isr, PulseEvent.setWidth 80, PulseEvent.isr, PulseEvent.isr]
        { pulse_gen_init_state with phase := PulsePhase.positive, gate := true }).width_ticks =
      ({ pulse_gen_init_state with phase := PulsePhase.positive, gate := true } :
        ChannelPulseState).width_ticks ∧
    (pulse_run isr_ch_a
        [PulseEvent.isr, PulseEvent.setWidth 80, PulseEvent.isr, PulseEvent.isr]
        { pulse_gen_init_state with phase := PulsePhase.positive, gate := true }).period_ticks =
      ({ pulse_gen_init_state with phase := PulsePhase.positive, gate := true } :
        ChannelPulseState).period_ticks :=
  ⟨by decide,
   (pulse_handoff_atomicity.2.2.2.1 _ _ (by decide)).1,
   (pulse_handoff_atomicity.2.2.2.1 _ _ (by decide)).2⟩

/-- C4 counterexample.  The claim asserts the gap programmed at the end
of DEADTIME2 is always at least the 4 us deadtime.  At active width 255
and active period 519 (both submittable values) the channel A ISR
programs a gap of 519 - (2*255 + 2*4) = 1 us, which is below the
deadtime. -/
theorem gap_below_deadtime_demo :
    (isr_ch_a wide_pulse_state).ocr = 1 ∧
    (isr_ch_a wide_pulse_state).ocr < DEAD_TIME_TICKS ∧
    wide_pulse_state.phase = PulsePhase.deadtime2 := by
  decide

/-- C4 amended.  The gap programmed at the end of DEADTIME2 is never
zero (no wrap-around): whenever period <= 2*width + 2*deadtime - in
particular whenever period < 2*width + 2*deadtime as the claim words
the guard - the ISR substitutes a gap equal to the deadtime, and
otherwise the gap is the positive remainder period - 2*width -
2*deadtime.  For channel B the gap is the compare value plus the
gap_remaining carry. -/
theorem gap_guard_positive (s : ChannelPulseState)
    (h : s.phase = PulsePhase.deadtime2) :
    (1 ≤ (isr_ch_a s).ocr ∧
     (s.period_ticks < 2 * s.width_ticks + 2 * DEAD_TIME_TICKS →
        (isr_ch_a s).ocr = DEAD_TIME_TICKS)) ∧
    (1 ≤ (isr_ch_b s).ocr + (isr_ch_b s).gap_remaining ∧
     (s.period_ticks < 2 * s.width_ticks + 2 * DEAD_TIME_TICKS →
        (isr_ch_b s).ocr + (isr_ch_b s).gap_remaining = DEAD_TIME_TICKS)) := by
  refine ⟨?_, ?_⟩
  · simp only [isr_ch_a, h, DEAD_TIME_TICKS]
    split <;> exact ⟨by simp <;> omega, fun hlt => by simp <;> omega⟩
  · simp only [isr_ch_b, h, DEAD_TIME_TICKS]
    split <;> split <;> exact ⟨by simp <;> omega, fun hlt => by simp <;> omega⟩

/-- Witness for C4 amended: at width 100, period 150 (period below
2*width + 2*deadtime) the end of DEADTIME2 programs exactly the 4 us
deadtime as the gap on both channels. -/
theorem gap_guard_positive_witness :
    ({ wide_pulse_state with width_ticks := 100, period_ticks := 150 } :
        ChannelPulseState).phase = PulsePhase.deadtime2 ∧
    (1 ≤ (isr_ch_a { wide_pulse_state with width_ticks := 100, period_ticks := 150 }).ocr ∧
      (({ wide_pulse_state with width_ticks := 100, period_ticks := 150 } :
          ChannelPulseState).period_ticks <
         2 * ({ wide_pulse_state with width_ticks := 100, period_ticks := 150 } :
          ChannelPulseState).width_ticks + 2 * DEAD_TIME_TICKS →
        (isr_ch_a { wide_pulse_state with width_ticks := 100, period_ticks := 150 }).ocr =
          DEAD_TIME_TICKS)) ∧
    (1 ≤ (isr_ch_b { wide_pulse_state with width_ticks := 100, period_ticks := 150 }).ocr +
        (isr_ch_b { wide_pulse_state with width_ticks := 100, period_ticks := 150 }).gap_remaining ∧
      (({ wide_pulse_state with width_ticks := 100, period_ticks := 150 } :
          ChannelPulseState).period_ticks <
         2 * ({ wide_pulse_state with width_ticks := 100, period_ticks := 150 } :
          ChannelPulseState).width_ticks + 2 * DEAD_TIME_TICKS →
        (isr_ch_b { wide_pulse_state with width_ticks := 100, period_ticks := 150 }).ocr +
          (isr_ch_b { wide_pulse_state with width_ticks := 100, period_ticks := 150 }).gap_remaining =
          DEAD_TIME_TICKS)) :=
  ⟨by decide, gap_guard_positive _ (by decide)⟩

/-- C5 counterexample.  The claim asserts the parameter engine's
scaling returns low + ((K*(high-low)) >> 8) and agrees with the
bytecode interpreter's scaling everywhere.  At K = 255, range (0, 255)
the engine's map_ma (which divides by 255) returns 255 while the
dispatcher's map_ma (which shifts by 8) returns 254. -/
theorem map_ma_copies_disagree :
    param_engine_map_ma 255 255 0 = 255 ∧
    mode_dispatcher_map_ma 255 255 0 = 254 ∧
    param_engine_map_ma 255 255 0 ≠ mode_dispatcher_map_ma 255 255 0 ∧
    param_engine_map_ma 255 255 0 ≠ spec_knob_scale 255 0 255 := by
  decide

/-- C5 amended.  For byte inputs the mode dispatcher's map_ma computes
exactly the claimed formula low +- ((K*range) >> 8); the parameter
engine's map_ma instead divides the product by 255, so the two copies
differ on some inputs. -/
theorem map_ma_characterization (K low high : Nat)
    (hK : K ≤ 255) (hl : low ≤ 255) (hh : high ≤ 255) :
    mode_dispatcher_map_ma K high low = spec_knob_scale K low high ∧
    param_engine_map_ma K high low =
      (if low ≤ high then low + K * (high - low) / 255
       else low - K * (low - high) / 255) := by
  constructor
  · by_cases hcmp : low ≤ high
    · simp only [mode_dispatcher_map_ma, spec_knob_scale, if_pos hcmp]
      have hb : K * (high - low) < 256 * 256 := by
        have hx : K * (high - low) ≤ 255 * 255 := Nat.mul_le_mul hK (by omega)
        omega
      have hq : K * (high - low) / 256 < 256 := Nat.div_lt_of_lt_mul hb
      have hsum : low + K * (high - low) / 256 ≤ 255 := by
        by_cases hd : high - low = 0
        · simp [hd]; omega
        · have hlt : K * (high - low) / 256 < high - low := by
            apply Nat.div_lt_of_lt_mul
            have h1 : K * (high - low) ≤ 255 * (high - low) :=
              Nat.mul_le_mul_right _ hK
            have h2 : 255 * (high - low) < 256 * (high - low) := by omega
            omega
          omega
      have e1 : K * (high - low) / 256 % 256 = K * (high - low) / 256 :=
        Nat.mod_eq_of_lt hq
      have e2 : (low + K * (high - low) / 256) % 256 = low + K * (high - low) / 256 :=
        Nat.mod_eq_of_lt (by omega)
      rw [e1, e2]
    · simp only [mode_dispatcher_map_ma, spec_knob_scale, if_neg hcmp]
      have hb : K * (low - high) < 256 * 256 := by
        have hx : K * (low - high) ≤ 255 * 255 := Nat.mul_le_mul hK (by omega)
        omega
      have hq : K * (low - high) / 256 < 256 := Nat.div_lt_of_lt_mul hb
      have e1 : K * (low - high) / 256 % 256 = K * (low - high) / 256 :=
        Nat.mod_eq_of_lt hq
      have e2 : (low - K * (low - high) / 256) % 256 = low - K * (low - high) / 256 :=
        Nat.mod_eq_of_lt (by omega)
      rw [e1, e2]
  · by_cases hcmp : low ≤ high
    · simp only [param_engine_map_ma, if_pos hcmp]
      have hq : K * (high - low) / 255 ≤ high - low := by
        have h1 : K * (high - low) / 255 ≤ 255 * (high - low) / 255 :=
          Nat.div_le_div_right (Nat.mul_le_mul_right _ hK)
        rwa [Nat.mul_div_cancel_left _ (by norm_num : (0:Nat) < 255)] at h1
      have e1 : K * (high - low) / 255 % 256 = K * (high - low) / 255 :=
        Nat.mod_eq_of_lt (by omega)
      have e2 : (low + K * (high - low) / 255) % 256 = low + K * (high - low) / 255 :=
        Nat.mod_eq_of_lt (by omega)
      rw [e1, e2]
    · simp only [param_engine_map_ma, if_neg hcmp]
      have hq : K * (low - high) / 255 ≤ low - high := by
        have h1 : K * (low - high) / 255 ≤ 255 * (low - high) / 255 :=
          Nat.div_le_div_right (Nat.mul_le_mul_right _ hK)
        rwa [Nat.mul_div_cancel_left _ (by norm_num : (0:Nat) < 255)] at h1
      have e1 : K * (low - high) / 255 % 256 = K * (low - high) / 255 :=
        Nat.mod_eq_of_lt (by omega)
      have e2 : (low - K * (low - high) / 255) % 256 = low - K * (low - high) / 255 :=
        Nat.mod_eq_of_lt (by omega)
      rw [e1, e2]

/-- Witness for C5 amended at K = 200, low = 10, high = 200. -/
theorem map_ma_characterization_witness :
    ((200:Nat) ≤ 255 ∧ (10:Nat) ≤ 255 ∧ (200:Nat) ≤ 255) ∧
    (mode_dispatcher_map_ma 200 200 10 = spec_knob_scale 200 10 200 ∧
     param_engine_map_ma 200 200 10 =
       (if (10:Nat) ≤ 200 then 10 + 200 * (200 - 10) / 255
        else 10 - 200 * (10 - 200) / 255)) :=
  ⟨⟨by decide, by decide, by decide⟩,
   map_ma_characterization 200 10 200 (by decide) (by decide) (by decide)⟩

/-- C8 counterexample.  With the LOOP group of testable property 5
(min 10, max 20, step 1, firing every tick, starting at 10 going up)
the value after exactly 11 firing ticks is 11, not 10: the code wraps
to the opposite endpoint on the same tick that reaches the boundary, so
the value is 10 again after 10 ticks and has already moved on by
tick 11. -/
theorem loop_wrap_eleven_ticks :
    (step_group_iter 11 1 loop_test_group 0 DIR_UP 128 0 0 0).group.value = 11 ∧
    (step_group_iter 11 1 loop_test_group 0 DIR_UP 128 0 0 0).group.value ≠ 10 := by
  decide

/-- C8 amended.  Same configuration: the value climbs 11, 12, ...
reaches 19 after 9 firing ticks, and on the 10th firing tick the step
hits max = 20 and the LOOP action wraps it to min, so after exactly 10
firing ticks the value equals 10 again. -/
theorem loop_wrap_ten_ticks :
    (step_group_iter 1 1 loop_test_group 0 DIR_UP 128 0 0 0).group.value = 11 ∧
    (step_group_iter 9 1 loop_test_group 0 DIR_UP 128 0 0 0).group.value = 19 ∧
    (step_group_iter 10 1 loop_test_group 0 DIR_UP 128 0 0 0).group.value = 10 := by
  decide

/-- C10.  mode_dispatcher_select_mode forces any mode number at or
above MODE_COUNT to 0 before using it: the entry performed is the full
module-table entry for mode 0 (Waves), and after any call the current
mode index is strictly below MODE_COUNT. -/
theorem select_mode_clamps (n : Nat) (h : MODE_COUNT ≤ n) :
    mode_dispatcher_select_mode n = MODE_WAVES ∧
    select_mode_entry n = ModeEntryKind.moduleEntry MODE_WAVES ∧
    (∀ k : Nat, mode_dispatcher_select_mode k < MODE_COUNT) := by
  refine ⟨?_, ?_, ?_⟩
  · simp [mode_dispatcher_select_mode, select_mode_normalize, MODE_WAVES, if_pos h]
  · simp [select_mode_entry, select_mode_normalize, if_pos h,
      MODE_RANDOM1, MODE_SPLIT, MODE_WAVES]
  · intro k
    simp only [mode_dispatcher_select_mode, select_mode_normalize, MODE_COUNT]
    split <;> omega

/-- Witness for C10 at mode number 30. -/
theorem select_mode_clamps_witness :
    MODE_COUNT ≤ 30 ∧
    (mode_dispatcher_select_mode 30 = MODE_WAVES ∧
     select_mode_entry 30 = ModeEntryKind.moduleEntry MODE_WAVES ∧
     (∀ k : Nat, mode_dispatcher_select_mode k < MODE_COUNT)) :=
  ⟨by decide, select_mode_clamps 30 (by decide)⟩

/-! ## Helper lemmas: bytecode interpreter -/

lemma copy_bytes_apply (prog : List Nat) :
    ∀ (n src addr : Nat) (m : RegFile) (a : Nat),
      copy_bytes prog src addr n m a =
        if addr ≤ a ∧ a < addr + n ∧ chan_in_range a then
          fetch prog (src + (a - addr))
        else m a := by
  intro n
  induction n with
  | zero =>
      intro src addr m a
      rw [copy_bytes, if_neg (by omega)]
  | succ k ih =>
      intro src addr m a
      rw [copy_bytes, ih]
      by_cases h1 : addr + 1 ≤ a ∧ a < addr + 1 + k ∧ chan_in_range a
      · rw [if_pos h1, if_pos ⟨by omega, by omega, h1.2.2⟩]
        congr 1
        omega
      · rw [if_neg h1]
        by_cases ha : a = addr
        · subst ha
          by_cases hr : chan_in_range a
          · rw [if_pos ⟨le_refl a, by omega, hr⟩]
            simp [reg_write, hr]
          · rw [if_neg (by intro hc; exact hr hc.2.2)]
            simp [reg_write, hr]
        · have hw : reg_write addr (fetch prog src) m a = m a := by
            simp only [reg_write]
            rw [if_neg]
            simp only [Bool.and_eq_true, beq_iff_eq]
            intro hc
            exact ha hc.2
          rw [hw, if_neg]
          intro hc
          exact h1 ⟨by omega, by omega, hc.2.2⟩

/-! ## Claim theorems: bytecode interpreter -/

/-- C6 counterexample.  The module [0x24, 0x90, 0xAA, 0xBB] starts
with opcode 0x24 = 00100100.  Under the claimed 001llaaa encoding
(two-bit length ll = 00, three-bit address-high aaa = 100) the COPY
would write one data byte at 0x490 and consume 3 bytes.  The
interpreter instead consumes 4 bytes and writes the two data bytes
0xAA, 0xBB at 0x090 and 0x091. -/
theorem copy_encoding_demo :
    step_pc (exec_step 0 copy_demo_prog 0 zero_interp) = some 4 ∧
    step_pc (exec_step 0 copy_demo_prog 0 zero_interp) ≠ some 3 ∧
    step_mem_at (exec_step 0 copy_demo_prog 0 zero_interp) 0x90 = some 0xAA ∧
    step_mem_at (exec_step 0 copy_demo_prog 0 zero_interp) 0x91 = some 0xBB ∧
    zero_interp.mem 0x91 = 0 := by
  decide

/-- C6 amended.  A COPY instruction is encoded 001lllaa: the length
field is the THREE bits 2-4 (l = (opcode & 0x1C) >> 2) and the
address-high field is the TWO bits 0-1.  The interpreter consumes
2 + (l+1) bytes and writes the l+1 data bytes to the l+1 consecutive
register addresses starting at ((opcode & 3) << 8) | addr_low
(writes that leave the two channel blocks are dropped). -/
theorem copy_instruction_behaviour (ma : Nat) (prog : List Nat) (pc : Nat)
    (st : InterpState) (h : fetch prog pc &&& 0xE0 = 0x20) :
    step_pc (exec_step ma prog pc st) =
      some (pc + 2 + (1 + (fetch prog pc &&& 0x1C) / 4)) ∧
    (∀ a : Nat,
      step_mem_at (exec_step ma prog pc st) a =
        some (if ((fetch prog pc &&& 0x03) * 256 ||| fetch prog (pc + 1)) ≤ a ∧
                 a < ((fetch prog pc &&& 0x03) * 256 ||| fetch prog (pc + 1)) +
                     (1 + (fetch prog pc &&& 0x1C) / 4) ∧
                 chan_in_range a then
            fetch prog (pc + 2 +
              (a - ((fetch prog pc &&& 0x03) * 256 ||| fetch prog (pc + 1))))
          else st.mem a)) := by
  have h0 : ¬(fetch prog pc &&& 0xE0 = 0) := by rw [h]; decide
  constructor
  · simp only [exec_step, if_neg h0, if_pos h, step_pc, Option.map_some']
  · intro a
    simp only [exec_step, if_neg h0, if_pos h, step_mem_at, Option.map_some',
      Option.some.injEq]
    rw [copy_bytes_apply]

/-- Witness for C6 amended: opcode 0x3C (length field 7, so 8 data
bytes, address-high 0) consumes 10 bytes; the fourth data byte lands at
register 0x93. -/
theorem copy_instruction_behaviour_witness :
    fetch [0x3C, 0x90, 1, 2, 3, 4, 5, 6, 7, 8] 0 &&& 0xE0 = 0x20 ∧
    step_pc (exec_step 0 [0x3C, 0x90, 1, 2, 3, 4, 5, 6, 7, 8] 0 zero_interp) = some 10 ∧
    step_mem_at (exec_step 0 [0x3C, 0x90, 1, 2, 3, 4, 5, 6, 7, 8] 0 zero_interp) 0x93 =
      some 4 :=
  ⟨by decide,
   ((copy_instruction_behaviour 0 [0x3C, 0x90, 1, 2, 3, 4, 5, 6, 7, 8] 0 zero_interp
      (by decide)).1).trans (by decide),
   ((copy_instruction_behaviour 0 [0x3C, 0x90, 1, 2, 3, 4, 5, 6, 7, 8] 0 zero_interp
      (by decide)).2 0x93).trans (by decide)⟩

/-- C7 counterexample.  The module [0x10, 0x00, 0xA5, 0x07] begins
with the reserved opcode 0x10.  The claim says the interpreter consumes
2 bytes with no effect and continues, which would execute the following
SET instruction and store 0x07 at register 0xA5.  The interpreter
instead halts at 0x10 (it matches the END test (opcode & 0xE0) == 0),
so the module has no effect at all and register 0xA5 keeps its old
value. -/
theorem reserved_opcode_halts_demo :
    step_pc (exec_step 0 reserved_demo_prog 0 demo_interp) = none ∧
    step_pc (exec_step 0 reserved_demo_prog 0 demo_interp) ≠ some 2 ∧
    (exec_module 8 0 reserved_demo_prog 0 demo_interp).mem 0xA5 = 0 ∧
    (exec_module 8 0 reserved_demo_prog 0 demo_interp).mem 0xA5 ≠ 0x07 := by
  decide

/-- C7 amended.  Every opcode whose top three bits are zero - which
includes the whole reserved range 0x10-0x1F - halts the module like
END.  The two-bytes-consumed no-effect branch applies instead to the
opcodes 0x70-0x7F. -/
theorem reserved_opcode_behaviour :
    (∀ (ma : Nat) (prog : List Nat) (pc : Nat) (st : InterpState),
       fetch prog pc &&& 0xE0 = 0 → exec_step ma prog pc st = none) ∧
    (∀ (ma : Nat) (prog : List Nat) (pc : Nat) (st : InterpState),
       fetch prog pc &&& 0xF0 = 0x70 → exec_step ma prog pc st = some (pc + 2, st)) := by
  constructor
  · intro ma prog pc st h
    simp only [exec_step, if_pos h]
  · intro ma prog pc st h
    have hm1 : (0xF0 : Nat) &&& 0xE0 = 0xE0 := by decide
    have e1 : fetch prog pc &&& 0xE0 = 0x60 := by
      rw [← hm1, ← Nat.and_assoc, h]; decide
    have hm2 : (0xF0 : Nat) &&& 0x80 = 0x80 := by decide
    have e2 : fetch prog pc &&& 0x80 = 0 := by
      rw [← hm2, ← Nat.and_assoc, h]; decide
    have hm3 : (0xF0 : Nat) &&& 0x10 = 0x10 := by decide
    have e3 : fetch prog pc &&& 0x10 = 0x10 := by
      rw [← hm3, ← Nat.and_assoc, h]; decide
    have e4 : fetch prog pc ≠ 0x60 := by
      intro hc
      rw [hc] at h
      exact absurd h (by decide)
    simp only [exec_step, e1, e2, e3, h, e4]
    norm_num

/-- Witness for C7 amended at the concrete opcodes 0x15 (halts) and
0x73 (consumes two bytes, no effect). -/
theorem reserved_opcode_behaviour_witness :
    (fetch [0x15, 0x44] 0 &&& 0xE0 = 0 ∧
      exec_step 0 [0x15, 0x44] 0 demo_interp = none) ∧
    (fetch [0x73, 0x44] 0 &&& 0xF0 = 0x70 ∧
      exec_step 0 [0x73, 0x44] 0 demo_interp = some (0 + 2, demo_interp)) :=
  ⟨⟨by decide, reserved_opcode_behaviour.1 0 [0x15, 0x44] 0 demo_interp (by decide)⟩,
   ⟨by decide, reserved_opcode_behaviour.2 0 [0x73, 0x44] 0 demo_interp (by decide)⟩⟩

/-! ## Helper lemmas: persistence -/

lemma xsum_foldl_acc (l : List Nat) :
    ∀ a : Nat, l.foldl (· ^^^ ·) a = a ^^^ l.foldl (· ^^^ ·) 0 := by
  induction l with
  | nil => intro a; simp
  | cons x t ih =>
      intro a
      simp only [List.foldl_cons]
      rw [ih (a ^^^ x), ih (0 ^^^ x), Nat.zero_xor, Nat.xor_assoc]

lemma xsum_cons (x : Nat) (t : List Nat) : xsum (x :: t) = x ^^^ xsum t := by
  simp only [xsum, List.foldl_cons]
  rw [xsum_foldl_acc, Nat.zero_xor]

lemma xsum_set : ∀ (l : List Nat) (i v : Nat), i < l.length →
    xsum (l.set i v) = xsum l ^^^ l.getD i 0 ^^^ v := by
  intro l
  induction l with
  | nil => intro i v h; simp at h
  | cons x t ih =>
      intro i v h
      cases i with
      | zero =>
          rw [List.set_cons_zero, xsum_cons, xsum_cons, List.getD_cons_zero]
          rw [Nat.xor_comm x (xsum t), Nat.xor_assoc (xsum t) x x, Nat.xor_self,
            Nat.xor_zero, Nat.xor_comm (xsum t) v]
      | succ j =>
          rw [List.set_cons_succ, xsum_cons, xsum_cons, List.getD_cons_succ]
          rw [ih j v (by simpa using h)]
          rw [Nat.xor_assoc (x ^^^ xsum t) (t.getD j 0) v,
            Nat.xor_assoc x (xsum t) (t.getD j 0 ^^^ v),
            Nat.xor_assoc (xsum t) (t.getD j 0) v]

lemma list_take_set : ∀ (l : List Nat) (i v n : Nat),
    (l.set i v).take n = (l.take n).set i v := by
  intro l
  induction l with
  | nil => intro i v n; simp
  | cons x t ih =>
      intro i v n
      cases i with
      | zero =>
          cases n with
          | zero => simp
          | succ m => simp [List.set_cons_zero, List.take_succ_cons]
      | succ j =>
          cases n with
          | zero => simp
          | succ m =>
              simp only [List.set_cons_succ, List.take_succ_cons]
              rw [ih]

lemma list_getD_take : ∀ (l : List Nat) (i n : Nat), i < n →
    (l.take n).getD i 0 = l.getD i 0 := by
  intro l
  induction l with
  | nil => intro i n _; simp
  | cons x t ih =>
      intro i n h
      cases n with
      | zero => omega
      | succ m =>
          cases i with
          | zero => simp [List.take_succ_cons]
          | succ j =>
              simp only [List.take_succ_cons, List.getD_cons_succ]
              exact ih j m (by omega)

lemma list_getD_set_self : ∀ (l : List Nat) (i v : Nat), i < l.length →
    (l.set i v).getD i 0 = v := by
  intro l
  induction l with
  | nil => intro i v h; simp at h
  | cons x t ih =>
      intro i v h
      cases i with
      | zero => simp
      | succ j =>
          simp only [List.set_cons_succ, List.getD_cons_succ]
          exact ih j v (by simpa using h)

lemma list_getD_set_ne : ∀ (l : List Nat) (i j v : Nat), i ≠ j →
    (l.set i v).getD j 0 = l.getD j 0 := by
  intro l
  induction l with
  | nil => intro i j v _; simp
  | cons x t ih =>
      intro i j v hne
      cases i with
      | zero =>
          cases j with
          | zero => exact absurd rfl hne
          | succ k => simp
      | succ i1 =>
          cases j with
          | zero => simp
          | succ k =>
              simp only [List.set_cons_succ, List.getD_cons_succ]
              exact ih i1 k v (by omega)

lemma list_set_oob : ∀ (l : List Nat) (i v : Nat), l.length ≤ i → l.set i v = l := by
  intro l
  induction l with
  | nil => intro i v _; simp
  | cons x t ih =>
      intro i v h
      cases i with
      | zero => simp at h
      | succ j =>
          rw [List.set_cons_succ, ih j v (by simpa using h)]

/-- The stored checksum byte of a saved block equals the XOR of the
first 21 stored bytes. -/
lemma saved_store_checksum (c : EepromConfig) :
    (saved_store c).getD 21 0 = xsum ((saved_store c).take 21) := rfl

lemma saved_store_length (c : EepromConfig) : (saved_store c).length = 22 := rfl

/-- Corrupting any single byte of a saved block makes the load reject
it. -/
lemma load_rejects_corruption (c : EepromConfig) (i v : Nat)
    (hi : i < 22) (hv : v ≠ (saved_store c).getD i 0) :
    eeprom_load_config ((saved_store c).set i v) = none := by
  set l := saved_store c with hl
  have hlen : l.length = 22 := saved_store_length c
  by_cases hi0 : i = 0
  · subst hi0
    have hm : (l.set 0 v).getD 0 0 = v := list_getD_set_self l 0 v (by omega)
    have hmagic : (parse_config (l.set 0 v)).magic = v := hm
    rw [eeprom_load_config, if_neg]
    intro hc
    rw [hmagic] at hc
    have hold : l.getD 0 0 = EEPROM_MAGIC_BYTE := rfl
    exact hv (hc.1.trans hold.symm)
  · by_cases hi21 : i = 21
    · subst hi21
      rw [eeprom_load_config, if_neg]
      intro hc
      have hcs : (parse_config (l.set 21 v)).checksum = v :=
        list_getD_set_self l 21 v (by omega)
      have htake : (l.set 21 v).take 21 = l.take 21 := by
        rw [list_take_set, list_set_oob]
        simp [hlen, List.length_take]
      have hsum : store_checksum (l.set 21 v) = l.getD 21 0 := by
        rw [store_checksum, htake, ← saved_store_checksum]
      rw [hcs, hsum] at hc
      exact hv hc.2.symm
    · have hi1 : 1 ≤ i := by omega
      rw [eeprom_load_config, if_neg]
      intro hc
      have hcs : (parse_config (l.set i v)).checksum = l.getD 21 0 :=
        list_getD_set_ne l i 21 v hi21
      have htl : (l.take 21).length = 21 := by simp [List.length_take, hlen]
      have hsum : store_checksum (l.set i v) =
          xsum (l.take 21) ^^^ l.getD i 0 ^^^ v := by
        rw [store_checksum, list_take_set, xsum_set (l.take 21) i v (by omega)]
        rw [list_getD_take l i 21 (by omega)]
      rw [hcs, hsum, ← saved_store_checksum] at hc
      have heq := hc.2
      rw [Nat.xor_assoc] at heq
      have h0 : l.getD i 0 ^^^ v = 0 := by
        have h1 : l.getD 21 0 ^^^ (l.getD i 0 ^^^ v) = l.getD 21 0 ^^^ 0 := by
          rw [Nat.xor_zero, heq]
        exact Nat.xor_right_inj.mp h1
      exact hv (Nat.xor_eq_zero.mp h0).symm

/-! ## Claim theorem: persistence -/

/-- C9.  Saving the configuration block and loading it back succeeds
and returns exactly the saved block (so every user-set field
round-trips; the save itself only rewrites the magic and checksum
bookkeeping bytes); corrupting any single stored byte to a different
value makes the magic or XOR-checksum verification fail, and
config_load_from_eeprom then substitutes the factory defaults (its
type shows it performs no store write on either path). -/
theorem config_persistence_roundtrip :
    (∀ c : EepromConfig,
      eeprom_load_config (saved_store c) = some (eeprom_save_config c)) ∧
    (∀ c : EepromConfig,
      (eeprom_save_config c).top_mode = c.top_mode ∧
      (eeprom_save_config c).favorite_mode = c.favorite_mode ∧
      (eeprom_save_config c).power_level = c.power_level ∧
      (eeprom_save_config c).intensity_a = c.intensity_a ∧
      (eeprom_save_config c).intensity_b = c.intensity_b ∧
      (eeprom_save_config c).frequency_a = c.frequency_a ∧
      (eeprom_save_config c).frequency_b = c.frequency_b ∧
      (eeprom_save_config c).width_a = c.width_a ∧
      (eeprom_save_config c).width_b = c.width_b ∧
      (eeprom_save_config c).multi_adjust = c.multi_adjust ∧
      (eeprom_save_config c).audio_gain = c.audio_gain ∧
      (eeprom_save_config c).split_mode = c.split_mode ∧
      (eeprom_save_config c).adv_ramp_level = c.adv_ramp_level ∧
      (eeprom_save_config c).adv_ramp_time = c.adv_ramp_time ∧
      (eeprom_save_config c).adv_depth = c.adv_depth ∧
      (eeprom_save_config c).adv_tempo = c.adv_tempo ∧
      (eeprom_save_config c).adv_frequency = c.adv_frequency ∧
      (eeprom_save_config c).adv_effect = c.adv_effect ∧
      (eeprom_save_config c).adv_width = c.adv_width ∧
      (eeprom_save_config c).adv_pace = c.adv_pace) ∧
    (∀ (c : EepromConfig) (i v : Nat), i < 22 → v ≠ (saved_store c).getD i 0 →
      eeprom_load_config ((saved_store c).set i v) = none) ∧
    (∀ (c : EepromConfig) (i v : Nat) (prev : SystemConfig),
      i < 22 → v ≠ (saved_store c).getD i 0 →
      config_load_from_eeprom ((saved_store c).set i v) prev = config_set_defaults) := by
  refine ⟨?_, ?_, load_rejects_corruption, ?_⟩
  · intro c
    have hparse : parse_config (saved_store c) = eeprom_save_config c := rfl
    have hmagic : (eeprom_save_config c).magic = EEPROM_MAGIC_BYTE := rfl
    have hsum : store_checksum (saved_store c) = (eeprom_save_config c).checksum := rfl
    rw [eeprom_load_config]
    simp only [hparse, hmagic, hsum, and_self, if_pos]
  · intro c
    exact ⟨rfl, rfl, rfl, rfl, rfl, rfl, rfl, rfl, rfl, rfl,
      rfl, rfl, rfl, rfl, rfl, rfl, rfl, rfl, rfl, rfl⟩
  · intro c i v prev hi hv
    rw [config_load_from_eeprom, load_rejects_corruption c i v hi hv]

/-- Witness for C9: the demo configuration round-trips, and corrupting
stored byte 1 (the mode byte) to 0x63 makes the load fail and the
runtime configuration fall back to factory defaults. -/
theorem config_persistence_roundtrip_witness :
    (eeprom_load_config (saved_store demo_config) = some (eeprom_save_config demo_config)) ∧
    ((1 : Nat) < 22 ∧ (0x63 : Nat) ≠ (saved_store demo_config).getD 1 0) ∧
    eeprom_load_config ((saved_store demo_config).set 1 0x63) = none ∧
    config_load_from_eeprom ((saved_store demo_config).set 1 0x63) demo_system_config =
      config_set_defaults :=
  ⟨config_persistence_roundtrip.1 demo_config,
   ⟨by decide, by decide⟩,
   config_persistence_roundtrip.2.2.1 demo_config 1 0x63 (by decide) (by decide),
   config_persistence_roundtrip.2.2.2 demo_config 1 0x63 demo_system_config
     (by decide) (by decide)⟩

end MK312BT
